import Mathlib

/-!
# kk_library.h : the declared function surface of the KK Library

The repository is one C header, `src/kklib/kk_library.h`.  It holds no function
bodies: its content is the sequence of function declarations of lines 26 to 110.
The embedding below is therefore a data embedding.  Every declaration of the
header becomes one `Decl` value that records the source line, the return type,
the function name and the parameter list (type and name of every parameter, in
source order).  A parameter list written `(void)` in C is the empty list.

The second half of the definitions transcribes the function table of section 6
of the specification, so that the table can be compared with the header.
-/

namespace KKLibrary

/-! ## C types occurring in the header -/

/-- Base type keywords used by the declarations of the header. -/
inductive CBase where
  | void
  | bool
  | char
  | unsignedChar
  | unsignedShort
  | int
  | unsignedInt
  deriving DecidableEq, Repr

/-- C type: a base type followed by `stars` many `*`. -/
structure CType where
  base : CBase
  stars : Nat
  deriving DecidableEq, Repr

namespace CType

/-- The type `void`. -/
def void : CType := ⟨CBase.void, 0⟩

/-- The type `bool`. -/
def bool : CType := ⟨CBase.bool, 0⟩

/-- The type `char`. -/
def char : CType := ⟨CBase.char, 0⟩

/-- The type `unsigned char`. -/
def unsignedChar : CType := ⟨CBase.unsignedChar, 0⟩

/-- The type `unsigned short`. -/
def unsignedShort : CType := ⟨CBase.unsignedShort, 0⟩

/-- The type `int`. -/
def int : CType := ⟨CBase.int, 0⟩

/-- The type `unsigned int`. -/
def unsignedInt : CType := ⟨CBase.unsignedInt, 0⟩

/-- The type `char *`. -/
def charPtr : CType := ⟨CBase.char, 1⟩

/-- The type `unsigned short *`. -/
def unsignedShortPtr : CType := ⟨CBase.unsignedShort, 1⟩

end CType

/-- One parameter of a declaration: its C type and its name. -/
structure Param where
  ty : CType
  name : String
  deriving DecidableEq, Repr

/-- One function declaration of the header. -/
structure Decl where
  /-- Line of `kk_library.h` holding the declaration. -/
  line : Nat
  /-- Declared return type. -/
  ret : CType
  /-- Declared function name. -/
  name : String
  /-- Declared parameters in source order; `(void)` is the empty list. -/
  params : List Param
  deriving DecidableEq, Repr

open CType in
/-- The declarations of `kk_library.h`, lines 26 to 110, in source order. -/
def decls : List Decl := [
  -- create multi source object
  ⟨27, int, "CreateMultiSource", []⟩,
  -- list available interfaces
  ⟨30, int, "Multi_EnumerateDevices", [⟨charPtr, "Names"⟩, ⟨unsignedChar, "EnumFlags"⟩]⟩,
  ⟨31, charPtr, "Multi_GetEnumerateDevicesErrorMsg", []⟩,
  ⟨32, int, "Multi_GetHostAndIPs",
    [⟨charPtr, "HostName"⟩, ⟨charPtr, "IPaddr"⟩, ⟨charPtr, "ErrorMsg"⟩]⟩,
  -- path definitions
  ⟨36, charPtr, "Multi_GetOutputPath", [⟨int, "ID"⟩]⟩,
  ⟨37, charPtr, "Multi_SetOutputPath", [⟨int, "ID"⟩, ⟨charPtr, "path"⟩]⟩,
  -- Debug protocol
  ⟨40, charPtr, "Multi_Debug", [⟨int, "ID"⟩, ⟨bool, "DbgOn"⟩, ⟨charPtr, "DbgID"⟩]⟩,
  ⟨41, int, "Multi_DebugFlags", [⟨int, "ID"⟩, ⟨bool, "ReportLog"⟩, ⟨bool, "LowLevelLog"⟩]⟩,
  ⟨42, int, "Multi_DebugLogLimit",
    [⟨int, "ID"⟩, ⟨unsignedChar, "LogType"⟩, ⟨unsignedInt, "aSize"⟩]⟩,
  ⟨43, charPtr, "Multi_DebugGetFilename", [⟨int, "ID"⟩]⟩,
  -- Info queries
  ⟨46, charPtr, "Multi_GetDLLVersion", []⟩,
  ⟨47, int, "Multi_GetBufferAmount", [⟨int, "ID"⟩]⟩,
  ⟨48, int, "Multi_GetTransmitBufferAmount", [⟨int, "ID"⟩]⟩,
  ⟨49, unsignedChar, "Multi_GetUserID", [⟨int, "ID"⟩]⟩,
  ⟨50, bool, "Multi_IsFileDevice", [⟨int, "ID"⟩]⟩,
  ⟨52, int, "Multi_GetFirmwareVersion", [⟨int, "ID"⟩]⟩,
  ⟨53, bool, "Multi_HasFRAM", [⟨int, "ID"⟩]⟩,
  ⟨55, bool, "Multi_IsSerialDevice", [⟨int, "ID"⟩]⟩,
  ⟨57, int, "Multi_GetDeviceStartState", [⟨int, "ID"⟩]⟩,
  -- Calibration
  ⟨61, int, "Multi_SetNSZCalibrationData", [⟨int, "ID"⟩, ⟨charPtr, "Data"⟩]⟩,
  -- FHR-Settings
  ⟨65, int, "Multi_ReadFHRData", [⟨int, "ID"⟩]⟩,
  ⟨66, int, "Multi_SetFHRData", [⟨int, "ID"⟩, ⟨charPtr, "Data"⟩]⟩,
  -- open and close connection
  ⟨69, int, "Multi_OpenConnection",
    [⟨int, "ID"⟩, ⟨charPtr, "Connection"⟩, ⟨bool, "BlockingIO"⟩]⟩,
  ⟨70, void, "Multi_CloseConnection", [⟨int, "ID"⟩]⟩,
  -- read reports
  ⟨73, int, "Multi_SetDecimalSeparator", [⟨int, "ID"⟩, ⟨char, "Separator"⟩]⟩,
  ⟨74, int, "Multi_SetNSZ", [⟨int, "ID"⟩, ⟨int, "aNSZ"⟩]⟩,
  ⟨75, int, "Multi_GetReport", [⟨int, "ID"⟩, ⟨charPtr, "Data"⟩]⟩,
  ⟨77, int, "Multi_SetSend7016", [⟨int, "ID"⟩, ⟨bool, "Value"⟩]⟩,
  -- send commands
  ⟨80, unsignedInt, "Multi_GetPendingCmdsCount", [⟨int, "ID"⟩]⟩,
  ⟨81, int, "Multi_SetCommandLimit", [⟨int, "ID"⟩, ⟨unsignedInt, "Limit"⟩]⟩,
  ⟨82, int, "Multi_SendCommand", [⟨int, "ID"⟩, ⟨charPtr, "Command"⟩, ⟨int, "Len"⟩]⟩,
  ⟨84, int, "Multi_RemoteLogin",
    [⟨int, "ID"⟩, ⟨unsignedInt, "Password"⟩, ⟨charPtr, "err"⟩]⟩,
  -- local TCP server
  ⟨87, int, "Multi_StartTcpServer", [⟨int, "ID"⟩, ⟨unsignedShortPtr, "aPort"⟩]⟩,
  ⟨88, int, "Multi_StopTcpServer", [⟨int, "ID"⟩]⟩,
  ⟨89, charPtr, "Multi_GetTcpServerError", [⟨int, "ID"⟩]⟩,
  ⟨90, void, "Multi_TcpReportLog", [⟨int, "ID"⟩, ⟨charPtr, "Data"⟩, ⟨int, "logType"⟩]⟩,
  -- connection to TCP server at LOG level
  ⟨93, int, "Multi_OpenTcpLog", [⟨int, "ID"⟩, ⟨charPtr, "IpPort"⟩, ⟨charPtr, "Mode"⟩]⟩,
  ⟨94, void, "Multi_CloseTcpLog", [⟨int, "ID"⟩]⟩,
  ⟨95, int, "Multi_GetTcpLog", [⟨int, "ID"⟩, ⟨charPtr, "Data"⟩]⟩,
  ⟨97, int, "Multi_OpenTcpLogTime",
    [⟨int, "ID"⟩, ⟨charPtr, "IpPort"⟩, ⟨charPtr, "Mode"⟩, ⟨charPtr, "Format"⟩]⟩,
  ⟨99, int, "Multi_OpenTcpLogType",
    [⟨int, "ID"⟩, ⟨charPtr, "IpPort"⟩, ⟨int, "LogType"⟩, ⟨charPtr, "Format"⟩]⟩,
  ⟨100, int, "Multi_TcpAppData", [⟨int, "ID"⟩, ⟨charPtr, "Data"⟩]⟩,
  -- send data to TCP server
  ⟨104, int, "Multi_TcpAppData", [⟨int, "ID"⟩, ⟨charPtr, "Data"⟩]⟩,
  -- generate test data
  ⟨107, int, "Multi_StartSaveBinaryData", [⟨int, "ID"⟩, ⟨charPtr, "DbgID"⟩]⟩,
  ⟨108, int, "Multi_StopSaveBinaryData", [⟨int, "ID"⟩]⟩,
  ⟨109, int, "Multi_StartSaveReportData", [⟨int, "ID"⟩, ⟨charPtr, "DbgID"⟩]⟩,
  ⟨110, int, "Multi_StopSaveReportData", [⟨int, "ID"⟩]⟩
]

/-- The function names the header declares, one entry per declaration. -/
def declaredNames : List String := decls.map Decl.name

/-- The declarations of the header carrying the given function name. -/
def declsNamed (n : String) : List Decl := decls.filter (fun d => d.name == n)

/-- The parameter types of a declaration in source order. -/
def Decl.paramTypes (d : Decl) : List CType := d.params.map Param.ty

/-- Whether a declaration has a parameter with the given name. -/
def Decl.hasParamNamed (d : Decl) (n : String) : Bool := d.params.any (fun p => p.name == n)

/-! ## The function table of section 6 of the specification -/

/-- The external-interface table of section 6 of the specification, row by row:
the category and the function names listed for it. -/
def specTable : List (String × List String) := [
  ("Lifecycle", ["CreateMultiSource"]),
  ("Enumeration",
    ["Multi_EnumerateDevices", "Multi_GetEnumerateDevicesErrorMsg", "Multi_GetHostAndIPs"]),
  ("Paths", ["Multi_GetOutputPath", "Multi_SetOutputPath"]),
  ("Debug", ["Multi_Debug", "Multi_DebugFlags", "Multi_DebugLogLimit", "Multi_DebugGetFilename"]),
  ("Info",
    ["Multi_GetDLLVersion", "Multi_GetBufferAmount", "Multi_GetUserID", "Multi_IsFileDevice",
     "Multi_GetFirmwareVersion", "Multi_HasFRAM", "Multi_IsSerialDevice",
     "Multi_GetDeviceStartState"]),
  ("Calibration", ["Multi_SetNSZCalibrationData"]),
  ("FHR", ["Multi_ReadFHRData", "Multi_SetFHRData"]),
  ("Connection", ["Multi_OpenConnection", "Multi_CloseConnection"]),
  ("Reports",
    ["Multi_SetDecimalSeparator", "Multi_SetNSZ", "Multi_GetReport", "Multi_SetSend7016"]),
  ("Commands",
    ["Multi_GetPendingCmdsCount", "Multi_SetCommandLimit", "Multi_SendCommand",
     "Multi_RemoteLogin"]),
  ("Local TCP server",
    ["Multi_StartTcpServer", "Multi_StopTcpServer", "Multi_GetTcpServerError",
     "Multi_TcpReportLog"]),
  ("TCP log client",
    ["Multi_OpenTcpLog", "Multi_CloseTcpLog", "Multi_GetTcpLog", "Multi_OpenTcpLogTime",
     "Multi_OpenTcpLogType", "Multi_TcpAppData"]),
  ("Test-data capture",
    ["Multi_StartSaveBinaryData", "Multi_StopSaveBinaryData", "Multi_StartSaveReportData",
     "Multi_StopSaveReportData"])
]

/-- All function names of the specification table, in table order. -/
def specTableNames : List String := specTable.foldr (fun row acc => row.2 ++ acc) []

/-- The parameter types the specification (section 4.1, Inputs) names for the
typed wrappers: int, unsigned char, unsigned short, char * and bool. -/
def specInputTypes : List CType :=
  [CType.int, CType.unsignedChar, CType.unsignedShort, CType.charPtr, CType.bool]

/-- The result kinds the specification (section 4.1) names for the return
semantics: integer status code, pointer to string, boolean. -/
def specResultTypes : List CType := [CType.int, CType.charPtr, CType.bool]

/-! ## Theorems -/

/-- C1: every function name listed in the section 6 table of the specification is
the name of a function declared in kk_library.h. -/
theorem specTable_names_declared (n : String) (h : n ∈ specTableNames) :
    n ∈ declaredNames := by
  revert n
  decide

/-- C1 witness: Multi_GetReport is listed in the table and is declared. -/
theorem specTable_names_declared_witness :
    "Multi_GetReport" ∈ specTableNames ∧ "Multi_GetReport" ∈ declaredNames :=
  ⟨by decide, specTable_names_declared "Multi_GetReport" (by decide)⟩

/-- C2 counterexample: the header declares Multi_GetTransmitBufferAmount (line 48)
and the section 6 table does not name it. -/
theorem transmitBufferAmount_not_in_specTable :
    "Multi_GetTransmitBufferAmount" ∈ declaredNames ∧
      "Multi_GetTransmitBufferAmount" ∉ specTableNames := by
  decide

/-- C2 amended: every function the header declares, other than
Multi_GetTransmitBufferAmount, is named in the section 6 table. -/
theorem declared_names_in_specTable (n : String) (h : n ∈ declaredNames)
    (hne : n ≠ "Multi_GetTransmitBufferAmount") : n ∈ specTableNames := by
  revert n
  decide

/-- C2 witness: Multi_GetBufferAmount, declared one line above the exception. -/
theorem declared_names_in_specTable_witness :
    "Multi_GetBufferAmount" ∈ declaredNames ∧
      "Multi_GetBufferAmount" ≠ "Multi_GetTransmitBufferAmount" ∧
      "Multi_GetBufferAmount" ∈ specTableNames :=
  ⟨by decide, by decide,
    declared_names_in_specTable "Multi_GetBufferAmount" (by decide) (by decide)⟩

/-- C3 counterexample: Multi_EnumerateDevices (line 30) is declared with the
parameters char *Names and unsigned char EnumFlags; none of them is an int
named ID. -/
theorem enumerateDevices_has_no_ID :
    (⟨30, CType.int, "Multi_EnumerateDevices",
        [⟨CType.charPtr, "Names"⟩, ⟨CType.unsignedChar, "EnumFlags"⟩]⟩ : Decl) ∈ decls ∧
      ¬ ∃ p ∈ [(⟨CType.charPtr, "Names"⟩ : Param), ⟨CType.unsignedChar, "EnumFlags"⟩],
          p.ty = CType.int ∧ p.name = "ID" := by
  decide

/-- C3 amended: every function declared in kk_library.h, other than
CreateMultiSource, Multi_EnumerateDevices, Multi_GetEnumerateDevicesErrorMsg,
Multi_GetHostAndIPs and Multi_GetDLLVersion, has a parameter of type int named
ID. -/
theorem handle_param_except_five (d : Decl) (hd : d ∈ decls)
    (hn : d.name ∉ ["CreateMultiSource", "Multi_EnumerateDevices",
      "Multi_GetEnumerateDevicesErrorMsg", "Multi_GetHostAndIPs", "Multi_GetDLLVersion"]) :
    ∃ p ∈ d.params, p.ty = CType.int ∧ p.name = "ID" := by
  revert d
  decide

/-- C3 witness: Multi_SendCommand (line 82). -/
theorem handle_param_except_five_witness :
    (⟨82, CType.int, "Multi_SendCommand",
        [⟨CType.int, "ID"⟩, ⟨CType.charPtr, "Command"⟩, ⟨CType.int, "Len"⟩]⟩ : Decl) ∈ decls ∧
      ∃ p ∈ [(⟨CType.int, "ID"⟩ : Param), ⟨CType.charPtr, "Command"⟩, ⟨CType.int, "Len"⟩],
        p.ty = CType.int ∧ p.name = "ID" :=
  ⟨by decide,
    handle_param_except_five
      ⟨82, CType.int, "Multi_SendCommand",
        [⟨CType.int, "ID"⟩, ⟨CType.charPtr, "Command"⟩, ⟨CType.int, "Len"⟩]⟩
      (by decide) (by decide)⟩

/-- C4 counterexample: Multi_DebugLogLimit (line 42) has the parameter
unsigned int aSize, and unsigned int is none of int, unsigned char,
unsigned short, char * and bool. -/
theorem debugLogLimit_param_outside_specInputTypes :
    (⟨42, CType.int, "Multi_DebugLogLimit",
        [⟨CType.int, "ID"⟩, ⟨CType.unsignedChar, "LogType"⟩,
         ⟨CType.unsignedInt, "aSize"⟩]⟩ : Decl) ∈ decls ∧
      (⟨CType.unsignedInt, "aSize"⟩ : Param) ∈
        [(⟨CType.int, "ID"⟩ : Param), ⟨CType.unsignedChar, "LogType"⟩,
         ⟨CType.unsignedInt, "aSize"⟩] ∧
      CType.unsignedInt ∉ specInputTypes := by
  decide

/-- C4 amended: for every declared function, the C type of every parameter is
one of int, unsigned char, unsigned short, char *, bool (the types the
specification names) or one of unsigned int, char, unsigned short *. -/
theorem param_types_covered (d : Decl) (hd : d ∈ decls) (p : Param) (hp : p ∈ d.params) :
    p.ty ∈ specInputTypes ∨ p.ty = CType.unsignedInt ∨ p.ty = CType.char ∨
      p.ty = CType.unsignedShortPtr := by
  revert p
  revert d
  decide

/-- C4 witness: the parameter unsigned short *aPort of Multi_StartTcpServer
(line 87). -/
theorem param_types_covered_witness :
    (⟨87, CType.int, "Multi_StartTcpServer",
        [⟨CType.int, "ID"⟩, ⟨CType.unsignedShortPtr, "aPort"⟩]⟩ : Decl) ∈ decls ∧
      (CType.unsignedShortPtr ∈ specInputTypes ∨ CType.unsignedShortPtr = CType.unsignedInt ∨
        CType.unsignedShortPtr = CType.char ∨
        CType.unsignedShortPtr = CType.unsignedShortPtr) :=
  ⟨by decide,
    param_types_covered
      ⟨87, CType.int, "Multi_StartTcpServer",
        [⟨CType.int, "ID"⟩, ⟨CType.unsignedShortPtr, "aPort"⟩]⟩
      (by decide) ⟨CType.unsignedShortPtr, "aPort"⟩ (by decide)⟩

/-- C5 counterexample: Multi_GetUserID (line 49) is declared with return type
unsigned char, which is none of int, char * and bool. -/
theorem getUserID_result_outside_specResultTypes :
    (⟨49, CType.unsignedChar, "Multi_GetUserID", [⟨CType.int, "ID"⟩]⟩ : Decl) ∈ decls ∧
      CType.unsignedChar ∉ specResultTypes := by
  decide

/-- C5 amended: every function declared in kk_library.h has one of the return
types int, char *, bool (the kinds the specification names), unsigned char,
unsigned int or void. -/
theorem result_types_covered (d : Decl) (hd : d ∈ decls) :
    d.ret ∈ specResultTypes ∨ d.ret = CType.unsignedChar ∨ d.ret = CType.unsignedInt ∨
      d.ret = CType.void := by
  revert d
  decide

/-- C5 witness: Multi_CloseConnection (line 70), declared void. -/
theorem result_types_covered_witness :
    (⟨70, CType.void, "Multi_CloseConnection", [⟨CType.int, "ID"⟩]⟩ : Decl) ∈ decls ∧
      (CType.void ∈ specResultTypes ∨ CType.void = CType.unsignedChar ∨
        CType.void = CType.unsignedInt ∨ CType.void = CType.void) :=
  ⟨by decide,
    result_types_covered ⟨70, CType.void, "Multi_CloseConnection", [⟨CType.int, "ID"⟩]⟩
      (by decide)⟩

/-- C6: Multi_GetDLLVersion is declared once, returning char * and taking no
parameters; Multi_GetOutputPath is declared once, returning char * and taking
exactly int ID; Multi_SetOutputPath is declared once with the parameters int ID,
char *path, and it returns char *, not int. -/
theorem string_returning_functions :
    declsNamed "Multi_GetDLLVersion" = [⟨46, CType.charPtr, "Multi_GetDLLVersion", []⟩] ∧
      declsNamed "Multi_GetOutputPath" =
        [⟨36, CType.charPtr, "Multi_GetOutputPath", [⟨CType.int, "ID"⟩]⟩] ∧
      declsNamed "Multi_SetOutputPath" =
        [⟨37, CType.charPtr, "Multi_SetOutputPath",
          [⟨CType.int, "ID"⟩, ⟨CType.charPtr, "path"⟩]⟩] ∧
      CType.charPtr ≠ CType.int := by
  decide

/-- C7: Multi_OpenConnection is declared once, as
int (int ID, char *Connection, bool BlockingIO), and it is the only declaration
of the header with a parameter named BlockingIO. -/
theorem blockingIO_only_on_openConnection :
    declsNamed "Multi_OpenConnection" =
        [⟨69, CType.int, "Multi_OpenConnection",
          [⟨CType.int, "ID"⟩, ⟨CType.charPtr, "Connection"⟩, ⟨CType.bool, "BlockingIO"⟩]⟩] ∧
      decls.filter (fun d => d.hasParamNamed "BlockingIO") =
        declsNamed "Multi_OpenConnection" := by
  decide

/-- C9: two declarations of the header with the same function name have the same
return type and the same parameter types in the same order; the header holds 47
declarations, and they carry 46 distinct names. -/
theorem redeclaration_consistent (d₁ d₂ : Decl) (h₁ : d₁ ∈ decls) (h₂ : d₂ ∈ decls)
    (hname : d₁.name = d₂.name) :
    (d₁.ret = d₂.ret ∧ d₁.paramTypes = d₂.paramTypes) ∧
      decls.length = 47 ∧ declaredNames.dedup.length = 46 := by
  revert d₂
  revert d₁
  decide

/-- C9 witness: the two declarations of Multi_TcpAppData, lines 100 and 104. -/
theorem redeclaration_consistent_witness :
    ((⟨100, CType.int, "Multi_TcpAppData",
        [⟨CType.int, "ID"⟩, ⟨CType.charPtr, "Data"⟩]⟩ : Decl) ∈ decls ∧
      (⟨104, CType.int, "Multi_TcpAppData",
        [⟨CType.int, "ID"⟩, ⟨CType.charPtr, "Data"⟩]⟩ : Decl) ∈ decls) ∧
      (CType.int = CType.int ∧
        Decl.paramTypes ⟨100, CType.int, "Multi_TcpAppData",
            [⟨CType.int, "ID"⟩, ⟨CType.charPtr, "Data"⟩]⟩ =
          Decl.paramTypes ⟨104, CType.int, "Multi_TcpAppData",
            [⟨CType.int, "ID"⟩, ⟨CType.charPtr, "Data"⟩]⟩) ∧
      decls.length = 47 ∧ declaredNames.dedup.length = 46 :=
  ⟨by decide,
    redeclaration_consistent
      ⟨100, CType.int, "Multi_TcpAppData", [⟨CType.int, "ID"⟩, ⟨CType.charPtr, "Data"⟩]⟩
      ⟨104, CType.int, "Multi_TcpAppData", [⟨CType.int, "ID"⟩, ⟨CType.charPtr, "Data"⟩]⟩
      (by decide) (by decide) rfl⟩

/-- C10: in every declaration of the header, a parameter named ID has type int
and is the first parameter; a declaration has no parameter named ID exactly when
its name is one of CreateMultiSource, Multi_EnumerateDevices,
Multi_GetEnumerateDevicesErrorMsg, Multi_GetHostAndIPs, Multi_GetDLLVersion; and
these five names are all declared. -/
theorem handle_is_first_int_param (d : Decl) (hd : d ∈ decls) :
    (∀ p ∈ d.params, p.name = "ID" → p.ty = CType.int ∧ d.params.head? = some p) ∧
      ((∀ p ∈ d.params, p.name ≠ "ID") ↔
        d.name ∈ ["CreateMultiSource", "Multi_EnumerateDevices",
          "Multi_GetEnumerateDevicesErrorMsg", "Multi_GetHostAndIPs",
          "Multi_GetDLLVersion"]) ∧
      (decls.filter (fun e => !e.hasParamNamed "ID")).map Decl.name =
        ["CreateMultiSource", "Multi_EnumerateDevices",
          "Multi_GetEnumerateDevicesErrorMsg", "Multi_GetHostAndIPs",
          "Multi_GetDLLVersion"] := by
  revert d
  decide

/-- C10 witness: Multi_OpenTcpLogType (line 99), whose parameter int ID comes
first, ahead of a second int parameter named LogType. -/
theorem handle_is_first_int_param_witness :
    (⟨99, CType.int, "Multi_OpenTcpLogType",
        [⟨CType.int, "ID"⟩, ⟨CType.charPtr, "IpPort"⟩, ⟨CType.int, "LogType"⟩,
         ⟨CType.charPtr, "Format"⟩]⟩ : Decl) ∈ decls ∧
      (∀ p ∈ [(⟨CType.int, "ID"⟩ : Param), ⟨CType.charPtr, "IpPort"⟩,
          ⟨CType.int, "LogType"⟩, ⟨CType.charPtr, "Format"⟩],
        p.name = "ID" →
          p.ty = CType.int ∧
            [(⟨CType.int, "ID"⟩ : Param), ⟨CType.charPtr, "IpPort"⟩,
              ⟨CType.int, "LogType"⟩, ⟨CType.charPtr, "Format"⟩].head? = some p) ∧
      ¬ (∀ p ∈ [(⟨CType.int, "ID"⟩ : Param), ⟨CType.charPtr, "IpPort"⟩,
          ⟨CType.int, "LogType"⟩, ⟨CType.charPtr, "Format"⟩], p.name ≠ "ID") :=
  ⟨by decide,
    (handle_is_first_int_param
      ⟨99, CType.int, "Multi_OpenTcpLogType",
        [⟨CType.int, "ID"⟩, ⟨CType.charPtr, "IpPort"⟩, ⟨CType.int, "LogType"⟩,
         ⟨CType.charPtr, "Format"⟩]⟩
      (by decide)).1,
    by decide⟩

end KKLibrary
